import Mathlib

/-!
Shallow embedding of the shadow-tree layout engine of this repository
(the Objective-C class `ABI46_0_0RCTShadowView` and its static helper
functions).  Geometric quantities that the source stores as `CGFloat` or
`float` are modelled by exact integers (`Int`); a C float that can carry
the `YGUndefined`/NaN sentinel is modelled by `Option Int`, with `none`
standing for the undefined value.  Everything is executable so that
concrete runs of the embedded code can be checked by `decide` or `rfl`.
-/

/-- A point, as in `CGPoint`. -/
structure CGPoint where
  x : Int
  y : Int
deriving DecidableEq, Repr

/-- A rectangle, as in `CGRect` (origin plus size). -/
structure CGRect where
  x : Int
  y : Int
  width : Int
  height : Int
deriving DecidableEq, Repr

/-- `UIUserInterfaceLayoutDirection` / `ABI46_0_0YGDirection` as far as the
embedded code observes it. -/
inductive LayoutDirection where
  | leftToRight
  | rightToLeft
deriving DecidableEq, Repr

/-- `ABI46_0_0RCTDisplayType`. -/
inductive RCTDisplayType where
  | none
  | flex
  | inline
deriving DecidableEq, Repr

/-! ## Box-model meta properties (`ABI46_0_0RCTProcessMetaProps...`) -/

/-- `ABI46_0_0YGUnit`. -/
inductive YGUnit where
  | undefined
  | point
  | percent
  | auto
deriving DecidableEq, Repr

/-- `ABI46_0_0YGValue`: a unit together with a float value.  The float is
`Option Int`; `none` models the NaN sentinel `ABI46_0_0YGUndefined`, so
`ABI46_0_0YGFloatIsUndefined v` is modelled by `v = none`. -/
structure YGValue where
  unit : YGUnit
  value : Option Int
deriving DecidableEq, Repr

/-- `ABI46_0_0YGValueUndefined`, the initial value of every meta prop. -/
def YGValueUndefined : YGValue := ⟨YGUnit.undefined, Option.none⟩

/-- The argument a yoga style setter for one edge ends up being called
with, after the `ABI46_0_0RCT_SET_ABI46_0_0YGVALUE` family of macros has
dispatched on the unit. -/
inductive EdgeSetting where
  | undef
  | pointSet (v : Option Int)
  | percentSet (v : Option Int)
  | autoSet
deriving DecidableEq, Repr

/-- The macro `ABI46_0_0RCT_SET_ABI46_0_0YGVALUE`: `auto` and `undefined`
both call the plain setter with `ABI46_0_0YGUndefined`, `point` passes the
value, `percent` calls the percent setter. -/
def setYGValue : YGValue → EdgeSetting
  | ⟨YGUnit.auto, _⟩ => EdgeSetting.undef
  | ⟨YGUnit.undefined, _⟩ => EdgeSetting.undef
  | ⟨YGUnit.point, v⟩ => EdgeSetting.pointSet v
  | ⟨YGUnit.percent, v⟩ => EdgeSetting.percentSet v

/-- The macro `ABI46_0_0RCT_SET_ABI46_0_0YGVALUE_AUTO`: like `setYGValue`
but `auto` calls the dedicated auto setter. -/
def setYGValueAuto : YGValue → EdgeSetting
  | ⟨YGUnit.auto, _⟩ => EdgeSetting.autoSet
  | ⟨YGUnit.undefined, _⟩ => EdgeSetting.undef
  | ⟨YGUnit.point, v⟩ => EdgeSetting.pointSet v
  | ⟨YGUnit.percent, v⟩ => EdgeSetting.percentSet v

/-- The nine-slot meta prop array `_paddingMetaProps` / `_marginMetaProps`
/ `_borderMetaProps`, indexed by `meta_prop_t`. -/
structure MetaProps where
  left : YGValue
  top : YGValue
  right : YGValue
  bottom : YGValue
  start : YGValue
  end_ : YGValue
  horizontal : YGValue
  vertical : YGValue
  all : YGValue
deriving DecidableEq, Repr

/-- Which setting each yoga edge receives from one run of a padding or
margin meta-prop resolution; `none` means the setter for that edge is not
invoked at all in that run. -/
structure EdgeApplication where
  start : Option EdgeSetting
  end_ : Option EdgeSetting
  left : Option EdgeSetting
  right : Option EdgeSetting
  top : Option EdgeSetting
  bottom : Option EdgeSetting
  horizontal : Option EdgeSetting
  vertical : Option EdgeSetting
  all : Option EdgeSetting
deriving DecidableEq, Repr

/-- Which raw border width each yoga edge receives from one run of
`ABI46_0_0RCTProcessMetaPropsBorder`; the outer `Option` is `none` when
`ABI46_0_0YGNodeStyleSetBorder` is not invoked for that edge, the inner
`Option Int` is the possibly undefined float argument. -/
structure BorderApplication where
  start : Option (Option Int)
  end_ : Option (Option Int)
  left : Option (Option Int)
  right : Option (Option Int)
  top : Option (Option Int)
  bottom : Option (Option Int)
  horizontal : Option (Option Int)
  vertical : Option (Option Int)
  all : Option (Option Int)
deriving DecidableEq, Repr

/-- `ABI46_0_0RCTProcessMetaPropsPadding`.  The boolean argument is the
result of `[[ABI46_0_0RCTI18nUtil sharedInstance] doLeftAndRightSwapInRTL]`. -/
def RCTProcessMetaPropsPadding (doLeftAndRightSwapInRTL : Bool) (metaProps : MetaProps) :
    EdgeApplication :=
  if doLeftAndRightSwapInRTL = false then
    { start := some (setYGValue metaProps.start)
      end_ := some (setYGValue metaProps.end_)
      left := some (setYGValue metaProps.left)
      right := some (setYGValue metaProps.right)
      top := some (setYGValue metaProps.top)
      bottom := some (setYGValue metaProps.bottom)
      horizontal := some (setYGValue metaProps.horizontal)
      vertical := some (setYGValue metaProps.vertical)
      all := some (setYGValue metaProps.all) }
  else
    { start := some (setYGValue
        (if metaProps.start.unit = YGUnit.undefined then metaProps.left else metaProps.start))
      end_ := some (setYGValue
        (if metaProps.end_.unit = YGUnit.undefined then metaProps.right else metaProps.end_))
      left := Option.none
      right := Option.none
      top := some (setYGValue metaProps.top)
      bottom := some (setYGValue metaProps.bottom)
      horizontal := some (setYGValue metaProps.horizontal)
      vertical := some (setYGValue metaProps.vertical)
      all := some (setYGValue metaProps.all) }

/-- `ABI46_0_0RCTProcessMetaPropsMargin`: identical control flow to the
padding resolution but every application goes through the `_AUTO` macro. -/
def RCTProcessMetaPropsMargin (doLeftAndRightSwapInRTL : Bool) (metaProps : MetaProps) :
    EdgeApplication :=
  if doLeftAndRightSwapInRTL = false then
    { start := some (setYGValueAuto metaProps.start)
      end_ := some (setYGValueAuto metaProps.end_)
      left := some (setYGValueAuto metaProps.left)
      right := some (setYGValueAuto metaProps.right)
      top := some (setYGValueAuto metaProps.top)
      bottom := some (setYGValueAuto metaProps.bottom)
      horizontal := some (setYGValueAuto metaProps.horizontal)
      vertical := some (setYGValueAuto metaProps.vertical)
      all := some (setYGValueAuto metaProps.all) }
  else
    { start := some (setYGValueAuto
        (if metaProps.start.unit = YGUnit.undefined then metaProps.left else metaProps.start))
      end_ := some (setYGValueAuto
        (if metaProps.end_.unit = YGUnit.undefined then metaProps.right else metaProps.end_))
      left := Option.none
      right := Option.none
      top := some (setYGValueAuto metaProps.top)
      bottom := some (setYGValueAuto metaProps.bottom)
      horizontal := some (setYGValueAuto metaProps.horizontal)
      vertical := some (setYGValueAuto metaProps.vertical)
      all := some (setYGValueAuto metaProps.all) }

/-- `ABI46_0_0RCTProcessMetaPropsBorder`: passes the raw `.value` float of
each meta prop to `ABI46_0_0YGNodeStyleSetBorder`; in the mirrored branch
the fallback test is `ABI46_0_0YGFloatIsUndefined` on the value, not a
test of the unit. -/
def RCTProcessMetaPropsBorder (doLeftAndRightSwapInRTL : Bool) (metaProps : MetaProps) :
    BorderApplication :=
  if doLeftAndRightSwapInRTL = false then
    { start := some metaProps.start.value
      end_ := some metaProps.end_.value
      left := some metaProps.left.value
      right := some metaProps.right.value
      top := some metaProps.top.value
      bottom := some metaProps.bottom.value
      horizontal := some metaProps.horizontal.value
      vertical := some metaProps.vertical.value
      all := some metaProps.all.value }
  else
    { start := some
        (if metaProps.start.value = Option.none then metaProps.left.value
         else metaProps.start.value)
      end_ := some
        (if metaProps.end_.value = Option.none then metaProps.right.value
         else metaProps.end_.value)
      left := Option.none
      right := Option.none
      top := some metaProps.top.value
      bottom := some metaProps.bottom.value
      horizontal := some metaProps.horizontal.value
      vertical := some metaProps.vertical.value
      all := some metaProps.all.value }

/-! ## Measurement callback (`ABI46_0_0RCTShadowViewMeasure`) -/

/-- `ABI46_0_0YGMeasureMode`. -/
inductive YGMeasureMode where
  | undefined
  | exactly
  | atMost
deriving DecidableEq, Repr

/-- A width/height pair (`CGSize` / `ABI46_0_0YGSize`). -/
structure MeasureSize where
  width : Int
  height : Int
deriving DecidableEq, Repr

/-- `ABI46_0_0RCTShadowViewMeasure`: the measure callback installed on a
yoga node.  The first argument is the intrinsic content size stored on the
shadow view, in which `-1` (`UIViewNoIntrinsicMetric`) marks a missing
dimension; both components are clamped to zero before use. -/
def RCTShadowViewMeasure (intrinsicContentSize : MeasureSize) (width : Int)
    (widthMode : YGMeasureMode) (height : Int) (heightMode : YGMeasureMode) : MeasureSize :=
  let iw := max 0 intrinsicContentSize.width
  let ih := max 0 intrinsicContentSize.height
  { width :=
      match widthMode with
      | YGMeasureMode.undefined => iw
      | YGMeasureMode.exactly => width
      | YGMeasureMode.atMost => min width iw
    height :=
      match heightMode with
      | YGMeasureMode.undefined => ih
      | YGMeasureMode.exactly => height
      | YGMeasureMode.atMost => min height ih }

/-! ## The shadow tree and the layout pass -/

/-- The slice of `ABI46_0_0RCTLayoutMetrics` that the embedded code reads
and compares (`ABI46_0_0RCTLayoutMetricsEqualToLayoutMetrics` compares
field by field; the fields not consumed by any embedded operation are
omitted). -/
structure RCTLayoutMetrics where
  frame : CGRect
  layoutDirection : LayoutDirection
  displayType : RCTDisplayType
deriving DecidableEq, Repr

/-- The observable state of the yoga node owned by one shadow view: the
computed layout read back by `ABI46_0_0RCTLayoutMetricsFromYogaNode`,
together with the `hasNewLayout` and `dirty` flags. -/
structure YGNodeState where
  frame : CGRect
  layoutDirection : LayoutDirection
  displayType : RCTDisplayType
  hasNewLayout : Bool
  dirty : Bool
deriving DecidableEq, Repr

/-- `ABI46_0_0RCTLayoutMetricsFromYogaNode`. -/
def RCTLayoutMetricsFromYogaNode (node : YGNodeState) : RCTLayoutMetrics :=
  { frame := node.frame
    layoutDirection := node.layoutDirection
    displayType := node.displayType }

mutual
/-- An `ABI46_0_0RCTShadowView`: tag, owned yoga node, stored layout
metrics, and the ordered child list `_ABI46_0_0ReactSubviews`. -/
inductive ShadowView where
  | mk (tag : Nat) (solver : YGNodeState) (metrics : RCTLayoutMetrics) (children : ShadowViews)
deriving DecidableEq, Repr
/-- The ordered child list of a shadow view. -/
inductive ShadowViews where
  | nil
  | cons (head : ShadowView) (tail : ShadowViews)
deriving DecidableEq, Repr
end

def ShadowView.tag : ShadowView → Nat
  | ShadowView.mk t _ _ _ => t

def ShadowView.solver : ShadowView → YGNodeState
  | ShadowView.mk _ s _ _ => s

def ShadowView.metrics : ShadowView → RCTLayoutMetrics
  | ShadowView.mk _ _ m _ => m

def ShadowView.children : ShadowView → ShadowViews
  | ShadowView.mk _ _ _ c => c

/-- `layoutWithMetrics:layoutContext:` on one shadow view: replace the
stored metrics and register the view in the affected set, but only when
the incoming metrics differ from the stored ones.  The affected set is
returned as the list of tags added. -/
def layoutWithMetrics (view : ShadowView) (layoutMetrics : RCTLayoutMetrics) :
    ShadowView × List Nat :=
  match view with
  | ShadowView.mk tag solver metrics children =>
    if metrics = layoutMetrics then (ShadowView.mk tag solver metrics children, [])
    else (ShadowView.mk tag solver layoutMetrics children, [tag])

/-- The loop body of `layoutSubviewsWithContext:`, processing a child list
with the running `layoutContext.absolutePosition` accumulator.  The
context struct is passed by value in the source, so a recursive call works
on a copy while the callers own accumulator persists across loop
iterations; this is mirrored here by threading the accumulator through the
sibling recursion but not through the child recursion.  The calls
`[child layoutWithMetrics:...]` and `[child layoutSubviewsWithContext:...]`
are inlined: after the former, the stored metrics of the child are exactly
the freshly read `childLayoutMetrics`, so the display-type test of the
latter is performed directly on those metrics.  Results: the rewritten
child list, the tags appended to `affectedShadowViews` (a shared mutable
set in the source, hence threaded globally), the trace of
`(tag, absolutePosition)` pairs as seen by each processed view, and the
final accumulator value of this loop. -/
def layoutSubviewsLoop : ShadowViews → CGPoint →
    ShadowViews × List Nat × List (Nat × CGPoint) × CGPoint
  | ShadowViews.nil, absolutePosition => (ShadowViews.nil, [], [], absolutePosition)
  | ShadowViews.cons (ShadowView.mk ctag csolver cmetrics cchildren) rest, absolutePosition =>
    if csolver.hasNewLayout = false then
      let r := layoutSubviewsLoop rest absolutePosition
      (ShadowViews.cons (ShadowView.mk ctag csolver cmetrics cchildren) r.1,
        r.2.1, r.2.2.1, r.2.2.2)
    else
      let csolver2 := { csolver with hasNewLayout := false }
      let childLayoutMetrics := RCTLayoutMetricsFromYogaNode csolver2
      let abs2 : CGPoint :=
        ⟨absolutePosition.x + childLayoutMetrics.frame.x,
         absolutePosition.y + childLayoutMetrics.frame.y⟩
      let affectedSelf : List Nat := if cmetrics = childLayoutMetrics then [] else [ctag]
      if childLayoutMetrics.displayType = RCTDisplayType.none then
        let r := layoutSubviewsLoop rest abs2
        (ShadowViews.cons (ShadowView.mk ctag csolver2 childLayoutMetrics cchildren) r.1,
          affectedSelf ++ r.2.1, (ctag, abs2) :: r.2.2.1, r.2.2.2)
      else
        let s := layoutSubviewsLoop cchildren abs2
        let r := layoutSubviewsLoop rest abs2
        (ShadowViews.cons (ShadowView.mk ctag csolver2 childLayoutMetrics s.1) r.1,
          affectedSelf ++ s.2.1 ++ r.2.1,
          (ctag, abs2) :: s.2.2.1 ++ r.2.2.1, r.2.2.2)

/-- `layoutSubviewsWithContext:`: returns immediately when the stored
metrics of the receiver carry display type `None`, otherwise runs the
child loop.  Returns the rewritten view, the affected tags, and the trace
of absolute positions. -/
def layoutSubviewsWithContext (view : ShadowView) (absolutePosition : CGPoint) :
    ShadowView × List Nat × List (Nat × CGPoint) :=
  match view with
  | ShadowView.mk tag solver metrics children =>
    if metrics.displayType = RCTDisplayType.none then
      (ShadowView.mk tag solver metrics children, [], [])
    else
      let r := layoutSubviewsLoop children absolutePosition
      (ShadowView.mk tag solver metrics r.1, r.2.1, r.2.2.1)

/-! ## Hit testing (`ABI46_0_0ReactTagAtPoint:`) -/

/-- `CGRectContainsPoint`: the point lies in the rectangle, where the
minimum edges are inclusive and the maximum edges are exclusive. -/
def CGRectContainsPoint (rect : CGRect) (point : CGPoint) : Bool :=
  decide (rect.x ≤ point.x ∧ point.x < rect.x + rect.width ∧
    rect.y ≤ point.y ∧ point.y < rect.y + rect.height)

/-- The loop of `ABI46_0_0ReactTagAtPoint:`: scan the child list in order;
on the first child whose frame contains the point, recurse into that child
with the point translated by the child frame origin (the recursive method
call is inlined as a continued scan of the grandchild list with the child
tag as the new fallback); if no child matches, return the fallback tag of
the receiver. -/
def reactTagAtPointLoop : ShadowViews → CGPoint → Nat → Nat
  | ShadowViews.nil, _, selfTag => selfTag
  | ShadowViews.cons (ShadowView.mk ctag _ cmetrics cchildren) rest, point, selfTag =>
    if CGRectContainsPoint cmetrics.frame point then
      reactTagAtPointLoop cchildren
        ⟨point.x - cmetrics.frame.x, point.y - cmetrics.frame.y⟩ ctag
    else
      reactTagAtPointLoop rest point selfTag

/-- `ABI46_0_0ReactTagAtPoint:`. -/
def reactTagAtPoint (view : ShadowView) (point : CGPoint) : Nat :=
  match view with
  | ShadowView.mk tag _ _ children => reactTagAtPointLoop children point tag

/-- Follows the words of the specification, for comparison with the code:
the first child, in child-list order, whose frame contains the point. -/
def firstChildContaining : ShadowViews → CGPoint → Option ShadowView
  | ShadowViews.nil, _ => Option.none
  | ShadowViews.cons c rest, point =>
    if CGRectContainsPoint c.metrics.frame point then some c
    else firstChildContaining rest point

/-! ## Root layout invocation (`layoutWithMinimumSize:...`)

The constraint solver itself (yoga) is vendored elsewhere in this
repository and is not among the files under verification; the solver
behaviour that `layoutWithMinimumSize:` depends on is therefore modelled
from the specification, as documented on each definition below. -/

mutual
/-- Whether any yoga node of the subtree carries the `dirty` flag
(`ABI46_0_0YGNodeIsDirty` on the root observes exactly this, since
dirtiness propagates to the owner in the solver). -/
def anyDirty : ShadowView → Bool
  | ShadowView.mk _ solver _ children => solver.dirty || anyDirtyList children
def anyDirtyList : ShadowViews → Bool
  | ShadowViews.nil => false
  | ShadowViews.cons c rest => anyDirty c || anyDirtyList rest
end

mutual
/-- Flag normalisation after a solver computation: every node of the
subtree has been resolved, so `dirty` is cleared and `hasNewLayout` is
set everywhere. -/
def markComputed : ShadowView → ShadowView
  | ShadowView.mk tag solver metrics children =>
    ShadowView.mk tag { solver with dirty := false, hasNewLayout := true } metrics
      (markComputedList children)
def markComputedList : ShadowViews → ShadowViews
  | ShadowViews.nil => ShadowViews.nil
  | ShadowViews.cons c rest => ShadowViews.cons (markComputed c) (markComputedList rest)
end

/-- Writing a style property into a yoga node marks that node dirty
(`ABI46_0_0YGNodeStyleSetMinWidth` and friends); here this is only ever
done on the root. -/
def markRootDirty (view : ShadowView) : ShadowView :=
  ShadowView.mk view.tag { view.solver with dirty := true } view.metrics view.children

/-- The yoga style slots on the root node that
`layoutWithMinimumSize:...` reads and writes; `none` models
`ABI46_0_0YGUndefined`, and `ABI46_0_0RCTCoreGraphicsFloatFromYogaValue`
reads it back as the base value `0`. -/
structure RootYogaStyle where
  minWidth : Option Int
  minHeight : Option Int
deriving DecidableEq, Repr

/-- The state a root layout invocation works on: the tree, the root style
minimum-size slots, and the solver-side record of the last completed
computation (constraint box of the last `ABI46_0_0YGNodeCalculateLayout`). -/
structure LayoutRootState where
  tree : ShadowView
  rootStyle : RootYogaStyle
  lastCompute : Option (Int × Int × LayoutDirection)
deriving DecidableEq, Repr

/-- A deterministic solver algorithm: from the current state and the
constraint box it produces the resolved tree (frames, directions, display
types).  It is a parameter of the development, so every theorem below
holds for every conforming flexbox solver. -/
def LayoutAlg : Type :=
  LayoutRootState → Int → Int → LayoutDirection → ShadowView

/-- Modelled from the spec: `ABI46_0_0YGNodeCalculateLayout`, which is part
of the vendored solver and not among the files under verification.  Per
the specification, layout is a pure, deterministic function of style plus
tree topology plus constraint box; the solver recomputes only when some
node is dirty or the constraint box changed, a computation resolves the
whole subtree (clearing `dirty` and setting `hasNewLayout` everywhere),
and otherwise the call leaves all nodes untouched. -/
def YGNodeCalculateLayoutModel (alg : LayoutAlg) (st : LayoutRootState)
    (maxWidth maxHeight : Int) (direction : LayoutDirection) : LayoutRootState :=
  if anyDirty st.tree = false ∧ st.lastCompute = some (maxWidth, maxHeight, direction) then st
  else
    { tree := markComputed (alg st maxWidth maxHeight direction)
      rootStyle := st.rootStyle
      lastCompute := some (maxWidth, maxHeight, direction) }

/-- The tail of
`layoutWithMinimumSize:maximumSize:layoutDirection:layoutContext:` after
the solver call (from the `ABI46_0_0YGNodeGetHasNewLayout` check on):
return without side effects when the root has no new layout, otherwise
clear the root `hasNewLayout` marker, read the root metrics, seed the
accumulator with the root frame origin, apply the metrics to the root, and
recurse over the subviews. -/
def layoutApplyAndRecurse (st2 : LayoutRootState) (absIn : CGPoint) :
    LayoutRootState × List Nat × List (Nat × CGPoint) :=
  if st2.tree.solver.hasNewLayout = false then (st2, [], [])
  else
    let solver2 := { st2.tree.solver with hasNewLayout := false }
    let layoutMetrics := RCTLayoutMetricsFromYogaNode solver2
    let abs2 : CGPoint := ⟨absIn.x + layoutMetrics.frame.x, absIn.y + layoutMetrics.frame.y⟩
    let rootApplied :=
      layoutWithMetrics
        (ShadowView.mk st2.tree.tag solver2 st2.tree.metrics st2.tree.children) layoutMetrics
    let sub := layoutSubviewsWithContext rootApplied.1 abs2
    ({ st2 with tree := sub.1 }, rootApplied.2 ++ sub.2.1, (st2.tree.tag, abs2) :: sub.2.2)

/-- `layoutWithMinimumSize:maximumSize:layoutDirection:layoutContext:` on
the root shadow view: push the minimum size into the root yoga style only
when it changed (a style write marks the node dirty), run the solver, then
apply and recurse via `layoutApplyAndRecurse`.  `absIn` is the
`absolutePosition` of the incoming layout context.  Returns the new state,
the affected tags, and the trace of `(tag, absolutePosition)` pairs. -/
def layoutWithMinimumSize (alg : LayoutAlg) (st : LayoutRootState)
    (minWidth minHeight maxWidth maxHeight : Int) (direction : LayoutDirection)
    (absIn : CGPoint) : LayoutRootState × List Nat × List (Nat × CGPoint) :=
  let oldMinimumWidth := st.rootStyle.minWidth.getD 0
  let oldMinimumHeight := st.rootStyle.minHeight.getD 0
  let st1 :=
    if oldMinimumWidth = minWidth ∧ oldMinimumHeight = minHeight then st
    else
      { st with
        rootStyle := ⟨some minWidth, some minHeight⟩
        tree := markRootDirty st.tree }
  layoutApplyAndRecurse (YGNodeCalculateLayoutModel alg st1 maxWidth maxHeight direction) absIn

/-! ## Standalone measurement (`sizeThatFitsMinimumSize:maximumSize:`)

The solver node store is modelled explicitly so that the effect of the
scratch computation on committed solver nodes is observable. -/

/-- The data held behind one yoga node handle, as far as
`sizeThatFitsMinimumSize:maximumSize:` touches it. -/
structure YGScratchNode where
  minWidth : Option Int
  minHeight : Option Int
  maxWidth : Option Int
  maxHeight : Option Int
  childHandles : List Nat
  layoutWidth : Int
  layoutHeight : Int
  hasNewLayout : Bool
  dirty : Bool
deriving DecidableEq, Repr

/-- A freshly created yoga node (`ABI46_0_0YGNodeNewWithConfig`). -/
def YGScratchNode.empty : YGScratchNode :=
  ⟨Option.none, Option.none, Option.none, Option.none, [], 0, 0, false, false⟩

/-- The heap of yoga node handles; `none` at a handle means the handle is
not allocated. -/
def YGStore : Type := Nat → Option YGScratchNode

/-- Write one handle of the store. -/
def storeSet (store : YGStore) (handle : Nat) (v : Option YGScratchNode) : YGStore :=
  fun h2 => if h2 = handle then v else store h2

/-- Read one handle of the store. -/
def storeGet (store : YGStore) (handle : Nat) : YGScratchNode :=
  (store handle).getD YGScratchNode.empty

/-- Update one handle of the store in place. -/
def storeModify (store : YGStore) (handle : Nat) (f : YGScratchNode → YGScratchNode) : YGStore :=
  storeSet store handle (some (f (storeGet store handle)))

/-- Modelled from the spec: the outcome of the scratch
`ABI46_0_0YGNodeCalculateLayout` run inside
`sizeThatFitsMinimumSize:maximumSize:`.  The solver is vendored elsewhere
in the repository; per the specification the standalone measurement is
computed on the cloned scratch state without mutating the live binding of
the node, so the computation is modelled as a function yielding the
resolved sizes of the two scratch nodes, `((constraint width, constraint
height), (cloned width, cloned height))`. -/
def ScratchComputeFn : Type :=
  YGStore → Nat → Nat → (Int × Int) × (Int × Int)

/-- `sizeThatFitsMinimumSize:maximumSize:`: clone the receiver yoga node,
create a scratch constraint node, attach the clone as its only child,
constrain it to `[minimumSize, maximumSize]`, solve, read the measured
size, then detach and free both scratch nodes.  `nextHandle` is the next
unallocated handle; `selfHandle` is the handle of the receiver yoga node.
Returns the measured size, the final store, and the next free handle. -/
def sizeThatFitsMinimumSize (computeFn : ScratchComputeFn) (store : YGStore)
    (nextHandle selfHandle : Nat) (minWidth minHeight maxWidth maxHeight : Int) :
    (Int × Int) × YGStore × Nat :=
  let clonedYogaNode := nextHandle
  let constraintYogaNode := nextHandle + 1
  let s1 := storeSet store clonedYogaNode (some (storeGet store selfHandle))
  let s2 := storeSet s1 constraintYogaNode (some YGScratchNode.empty)
  let s3 := storeModify s2 constraintYogaNode (fun r => { r with childHandles := [clonedYogaNode] })
  let s4 := storeModify s3 constraintYogaNode
    (fun r => { r with
      minWidth := some minWidth, minHeight := some minHeight,
      maxWidth := some maxWidth, maxHeight := some maxHeight })
  let out := computeFn s4 constraintYogaNode clonedYogaNode
  let constraintOut := out.1
  let clonedOut := out.2
  let s5 := storeModify s4 constraintYogaNode
    (fun r => { r with
      layoutWidth := constraintOut.1, layoutHeight := constraintOut.2,
      hasNewLayout := true, dirty := false })
  let s6 := storeModify s5 clonedYogaNode
    (fun r => { r with
      layoutWidth := clonedOut.1, layoutHeight := clonedOut.2,
      hasNewLayout := true, dirty := false })
  let measuredSize := ((storeGet s6 constraintYogaNode).layoutWidth,
    (storeGet s6 constraintYogaNode).layoutHeight)
  let s7 := storeModify s6 constraintYogaNode (fun r => { r with childHandles := [] })
  let s8 := storeSet s7 constraintYogaNode Option.none
  let s9 := storeSet s8 clonedYogaNode Option.none
  (measuredSize, s9, nextHandle + 2)

/-! ## Child-list mutation (`insertABI46_0_0ReactSubview:atIndex:`,
`removeABI46_0_0ReactSubview:`) -/

/-- `canHaveSubviews` of the base class. -/
def canHaveSubviews : Bool := true

/-- `isYogaLeafNode` of the base class. -/
def isYogaLeafNode : Bool := false

/-- The two ordered child sequences kept by one shadow view: the
`_ABI46_0_0ReactSubviews` array and the child list of the owned yoga node,
both as tag lists. -/
structure NodeLinks where
  reactSubviews : List Nat
  yogaChildren : List Nat
deriving DecidableEq, Repr

/-- `insertABI46_0_0ReactSubview:atIndex:`: assert `canHaveSubviews`,
splice the subview into the child array, and (for non-leaf nodes) insert
the subview yoga node at the same index.  A raised
`ABI46_0_0RCTAssert` is modelled as an `error` result. -/
def insertReactSubview (st : NodeLinks) (subviewTag atIndex : Nat) :
    Except String NodeLinks :=
  if canHaveSubviews = false then
    Except.error "Attempt to insert subview inside leaf view."
  else
    Except.ok
      { reactSubviews := st.reactSubviews.insertIdx atIndex subviewTag
        yogaChildren :=
          if isYogaLeafNode = false then st.yogaChildren.insertIdx atIndex subviewTag
          else st.yogaChildren }

/-- `removeABI46_0_0ReactSubview:`: unconditionally clear the subview
parent back-reference, remove every occurrence of the subview from the
child array (`removeObject:`), and (for non-leaf nodes) detach the yoga
child (`ABI46_0_0YGNodeRemoveChild`, which removes the first occurrence if
present and does nothing otherwise).  `subviewSuperview` is the parent
back-reference stored on the subview; the second component of the result
is its new value.  The method contains no assertion, so no `error` result
is possible. -/
def removeReactSubview (st : NodeLinks) (_subviewSuperview : Option Nat) (subviewTag : Nat) :
    Except String (NodeLinks × Option Nat) :=
  Except.ok
    ({ reactSubviews := st.reactSubviews.filter (fun t => t != subviewTag)
       yogaChildren :=
         if isYogaLeafNode = false then st.yogaChildren.erase subviewTag
         else st.yogaChildren },
     Option.none)

/-- A sequence of child-list operations on one node. -/
inductive TreeOp where
  | insert (tag atIndex : Nat)
  | remove (tag : Nat)
deriving DecidableEq, Repr

/-- Run a sequence of child-list operations.  An insertion is admissible
only when the inserted subview is not already a child (the solver aborts
when a node that already has an owner is inserted) and the index is in
range (`NSMutableArray` raises `NSRangeException` otherwise); an
inadmissible sequence yields `none`. -/
def applyTreeOps : NodeLinks → List TreeOp → Option NodeLinks
  | st, [] => some st
  | st, TreeOp.insert tag atIndex :: rest =>
    if tag ∈ st.reactSubviews ∨ st.reactSubviews.length < atIndex then Option.none
    else
      match insertReactSubview st tag atIndex with
      | Except.ok st2 => applyTreeOps st2 rest
      | Except.error _ => Option.none
  | st, TreeOp.remove tag :: rest =>
    match removeReactSubview st Option.none tag with
    | Except.ok (st2, _) => applyTreeOps st2 rest
    | Except.error _ => Option.none

/-! ## Concrete instances used by counterexamples and witnesses -/

/-- Stored metrics of a freshly created view (frame zero, flex display). -/
def demoMetricsZero : RCTLayoutMetrics :=
  ⟨⟨0, 0, 0, 0⟩, LayoutDirection.leftToRight, RCTDisplayType.flex⟩

/-- Solver output for child A: local frame origin `(10, 10)`, new layout. -/
def solverA : YGNodeState :=
  ⟨⟨10, 10, 50, 50⟩, LayoutDirection.leftToRight, RCTDisplayType.flex, true, false⟩

/-- Solver output for grandchild B: local frame origin `(5, 5)`, new layout. -/
def solverB : YGNodeState :=
  ⟨⟨5, 5, 10, 10⟩, LayoutDirection.leftToRight, RCTDisplayType.flex, true, false⟩

/-- Solver output for the later sibling C: local frame origin `(20, 20)`,
new layout. -/
def solverC : YGNodeState :=
  ⟨⟨20, 20, 10, 10⟩, LayoutDirection.leftToRight, RCTDisplayType.flex, true, false⟩

/-- Grandchild B (tag 3) at local `(5, 5)` inside child A. -/
def demoB : ShadowView := ShadowView.mk 3 solverB demoMetricsZero ShadowViews.nil

/-- Child A (tag 1) at local `(10, 10)` containing grandchild B. -/
def demoA : ShadowView :=
  ShadowView.mk 1 solverA demoMetricsZero (ShadowViews.cons demoB ShadowViews.nil)

/-- Later sibling C (tag 2) at local `(20, 20)`. -/
def demoC : ShadowView := ShadowView.mk 2 solverC demoMetricsZero ShadowViews.nil

/-- Solver output of the root node (origin `(0, 0)`). -/
def demoRootSolver : YGNodeState :=
  ⟨⟨0, 0, 100, 100⟩, LayoutDirection.leftToRight, RCTDisplayType.flex, true, false⟩

/-- Stored metrics of the root node (origin `(0, 0)`, flex display). -/
def demoRootMetrics : RCTLayoutMetrics :=
  ⟨⟨0, 0, 100, 100⟩, LayoutDirection.leftToRight, RCTDisplayType.flex⟩

/-- A root (tag 0) at origin `(0, 0)` whose first child is A, followed by
an arbitrary list of later siblings of A. -/
def demoRootWith (rest : ShadowViews) : ShadowView :=
  ShadowView.mk 0 demoRootSolver demoRootMetrics (ShadowViews.cons demoA rest)

/-- The concrete tree root `[A, C]` of the counterexample. -/
def demoRootAC : ShadowView := demoRootWith (ShadowViews.cons demoC ShadowViews.nil)

/-- Overlapping sibling 1: frame `(0, 0, 10, 10)`. -/
def overlapA : ShadowView :=
  ShadowView.mk 1 demoRootSolver
    ⟨⟨0, 0, 10, 10⟩, LayoutDirection.leftToRight, RCTDisplayType.flex⟩ ShadowViews.nil

/-- Overlapping sibling 2: frame `(5, 5, 10, 10)`; both sibling frames
contain the probe point `(6, 6)`. -/
def overlapB : ShadowView :=
  ShadowView.mk 2 demoRootSolver
    ⟨⟨5, 5, 10, 10⟩, LayoutDirection.leftToRight, RCTDisplayType.flex⟩ ShadowViews.nil

/-- Parent (tag 0) of the two overlapping siblings, in list order A then B. -/
def overlapParent : ShadowView :=
  ShadowView.mk 0 demoRootSolver demoRootMetrics
    (ShadowViews.cons overlapA (ShadowViews.cons overlapB ShadowViews.nil))

/-- A node whose stored metrics carry display type `None` while its child
A still has pending new layout from the solver. -/
def displayNoneDemo : ShadowView :=
  ShadowView.mk 7 demoRootSolver
    ⟨⟨0, 0, 30, 30⟩, LayoutDirection.leftToRight, RCTDisplayType.none⟩
    (ShadowViews.cons demoA ShadowViews.nil)

/-- A meta-prop state on which the unit test and the value test disagree:
the start slot has undefined unit but a defined value `5`, the left slot
is a point value `7`. -/
def mpAsym : MetaProps :=
  { left := ⟨YGUnit.point, some 7⟩
    top := YGValueUndefined
    right := YGValueUndefined
    bottom := YGValueUndefined
    start := ⟨YGUnit.undefined, some 5⟩
    end_ := YGValueUndefined
    horizontal := YGValueUndefined
    vertical := YGValueUndefined
    all := YGValueUndefined }

/-- A meta-prop state with a set start (point `11`), an unset end, and
point values on the physical edges. -/
def mpDemo : MetaProps :=
  { left := ⟨YGUnit.point, some 3⟩
    top := YGValueUndefined
    right := ⟨YGUnit.point, some 4⟩
    bottom := YGValueUndefined
    start := ⟨YGUnit.point, some 11⟩
    end_ := YGValueUndefined
    horizontal := YGValueUndefined
    vertical := YGValueUndefined
    all := YGValueUndefined }

/-- A store with one committed yoga node at handle 0. -/
def storeDemo : YGStore :=
  fun h2 => if h2 = 0 then some YGScratchNode.empty else Option.none

/-- A concrete scratch-computation outcome. -/
def computeFnDemo : ScratchComputeFn := fun _ _ _ => ((42, 24), (40, 20))

/-- A concrete admissible operation sequence: insert 10 at 0, insert 20 at
1, insert 30 at 1, remove 20. -/
def demoOps : List TreeOp :=
  [TreeOp.insert 10 0, TreeOp.insert 20 1, TreeOp.insert 30 1, TreeOp.remove 20]

/-- The node state reached by `demoOps` from the empty node. -/
def demoLinksFinal : NodeLinks := ⟨[10, 30], [10, 30]⟩

/-! ## Theorems -/

/-- Claim C2: with mirroring disabled, the start and end meta props are
applied directly to the solver start and end edges, mentioning only the
start respectively end slot (hence independent of left and right, with no
fallback); with mirroring enabled, the start edge receives the start value
when the start unit is set and the left value otherwise, and the end edge
receives the end value when the end unit is set and the right value
otherwise, for both the padding and the margin resolution. -/
theorem C2_logical_edge_resolution (mp : MetaProps) :
    ((RCTProcessMetaPropsPadding false mp).start = some (setYGValue mp.start)
      ∧ (RCTProcessMetaPropsPadding false mp).end_ = some (setYGValue mp.end_)
      ∧ (RCTProcessMetaPropsMargin false mp).start = some (setYGValueAuto mp.start)
      ∧ (RCTProcessMetaPropsMargin false mp).end_ = some (setYGValueAuto mp.end_))
    ∧ (mp.start.unit ≠ YGUnit.undefined →
        (RCTProcessMetaPropsPadding true mp).start = some (setYGValue mp.start)
        ∧ (RCTProcessMetaPropsMargin true mp).start = some (setYGValueAuto mp.start))
    ∧ (mp.start.unit = YGUnit.undefined →
        (RCTProcessMetaPropsPadding true mp).start = some (setYGValue mp.left)
        ∧ (RCTProcessMetaPropsMargin true mp).start = some (setYGValueAuto mp.left))
    ∧ (mp.end_.unit ≠ YGUnit.undefined →
        (RCTProcessMetaPropsPadding true mp).end_ = some (setYGValue mp.end_)
        ∧ (RCTProcessMetaPropsMargin true mp).end_ = some (setYGValueAuto mp.end_))
    ∧ (mp.end_.unit = YGUnit.undefined →
        (RCTProcessMetaPropsPadding true mp).end_ = some (setYGValue mp.right)
        ∧ (RCTProcessMetaPropsMargin true mp).end_ = some (setYGValueAuto mp.right)) := by
  refine ⟨⟨rfl, rfl, rfl, rfl⟩, ?_, ?_, ?_, ?_⟩ <;> intro h <;> constructor <;>
    simp [RCTProcessMetaPropsPadding, RCTProcessMetaPropsMargin, h]

/-- Witness for C2 at the concrete state `mpDemo` (start set to a point
value, end unset). -/
theorem C2_witness :
    mpDemo.start.unit ≠ YGUnit.undefined
    ∧ mpDemo.end_.unit = YGUnit.undefined
    ∧ (RCTProcessMetaPropsPadding true mpDemo).start = some (setYGValue mpDemo.start)
    ∧ (RCTProcessMetaPropsMargin true mpDemo).end_ = some (setYGValueAuto mpDemo.right) :=
  ⟨by decide, by decide,
    ((C2_logical_edge_resolution mpDemo).2.1 (by decide)).1,
    ((C2_logical_edge_resolution mpDemo).2.2.2.2 (by decide)).2⟩

/-- Counterexample to claim C3: at the meta-prop state `mpAsym` (start
unit undefined but start value defined as `5`, left a point value `7`),
with mirroring enabled, the margin and padding resolutions fall back to
the left slot (applying `7`) while the border resolution passes the start
value `5` through — so border does not select between start and left by
the same unset-test as margin and padding. -/
theorem C3_counterexample :
    (RCTProcessMetaPropsMargin true mpAsym).start = some (EdgeSetting.pointSet (some 7))
    ∧ (RCTProcessMetaPropsPadding true mpAsym).start = some (EdgeSetting.pointSet (some 7))
    ∧ (RCTProcessMetaPropsBorder true mpAsym).start = some (some 5)
    ∧ mpAsym.start.value = some 5 ∧ mpAsym.left.value = some 7 := by
  decide

/-- Claim C3, amended: margin, padding, and border each apply the same
three-branch precedence independently (the start and end slots win
whenever set, the physical left and right slots are the fallback), but the
unset-test is not the same: margin and padding test the unit, border tests
the float value.  The three resolutions select the same source slot
exactly at the meta-prop states where the start and end units are
undefined precisely when the corresponding values are undefined (the
hypotheses below); at states with an undefined unit but a defined value —
the kind of state the border setters produce, since they write only the
value — the two tests can disagree, as the counterexample shows. -/
theorem C3_amended_three_branch (mp : MetaProps)
    (hs : mp.start.unit = YGUnit.undefined ↔ mp.start.value = Option.none)
    (he : mp.end_.unit = YGUnit.undefined ↔ mp.end_.value = Option.none) :
    (RCTProcessMetaPropsBorder true mp).start
        = some ((if mp.start.unit = YGUnit.undefined then mp.left else mp.start).value)
    ∧ (RCTProcessMetaPropsBorder true mp).end_
        = some ((if mp.end_.unit = YGUnit.undefined then mp.right else mp.end_).value)
    ∧ (RCTProcessMetaPropsMargin true mp).start
        = some (setYGValueAuto (if mp.start.unit = YGUnit.undefined then mp.left else mp.start))
    ∧ (RCTProcessMetaPropsPadding true mp).start
        = some (setYGValue (if mp.start.unit = YGUnit.undefined then mp.left else mp.start))
    ∧ (RCTProcessMetaPropsMargin true mp).end_
        = some (setYGValueAuto (if mp.end_.unit = YGUnit.undefined then mp.right else mp.end_))
    ∧ (RCTProcessMetaPropsPadding true mp).end_
        = some (setYGValue (if mp.end_.unit = YGUnit.undefined then mp.right else mp.end_)) := by
  refine ⟨?_, ?_, rfl, rfl, rfl, rfl⟩
  · by_cases h : mp.start.unit = YGUnit.undefined
    · simp [RCTProcessMetaPropsBorder, hs.mp h, h]
    · have hv : ¬ mp.start.value = Option.none := fun hv => h (hs.mpr hv)
      simp [RCTProcessMetaPropsBorder, hv, h]
  · by_cases h : mp.end_.unit = YGUnit.undefined
    · simp [RCTProcessMetaPropsBorder, he.mp h, h]
    · have hv : ¬ mp.end_.value = Option.none := fun hv => h (he.mpr hv)
      simp [RCTProcessMetaPropsBorder, hv, h]

/-- Witness for the amended C3 at the concrete state `mpDemo`, where the
unit test and the value test coincide. -/
theorem C3_witness :
    (RCTProcessMetaPropsBorder true mpDemo).start = some mpDemo.start.value
    ∧ (RCTProcessMetaPropsMargin true mpDemo).start = some (setYGValueAuto mpDemo.start) := by
  have h := C3_amended_three_branch mpDemo (by decide) (by decide)
  exact ⟨by rw [h.1]; decide, by rw [h.2.2.1]; decide⟩

/-- Claim C4: the measurement callback returns the clamped intrinsic size
on an axis when the mode is Undefined, the offered size when the mode is
Exactly, and the minimum of the offered size and the clamped intrinsic
size when the mode is AtMost; a negative intrinsic dimension is clamped to
zero first.  In particular, with intrinsic size `(100, 50)`:
`(Exactly, 40)` yields width `40`, `(AtMost, 40)` yields `40`, and
`(AtMost, 200)` yields `100`. -/
theorem C4_measure_modes (ic : MeasureSize) (w h : Int) (wm hm : YGMeasureMode) :
    (RCTShadowViewMeasure ic w YGMeasureMode.undefined h hm).width = max 0 ic.width
    ∧ (RCTShadowViewMeasure ic w YGMeasureMode.exactly h hm).width = w
    ∧ (RCTShadowViewMeasure ic w YGMeasureMode.atMost h hm).width = min w (max 0 ic.width)
    ∧ (RCTShadowViewMeasure ic w wm h YGMeasureMode.undefined).height = max 0 ic.height
    ∧ (RCTShadowViewMeasure ic w wm h YGMeasureMode.exactly).height = h
    ∧ (RCTShadowViewMeasure ic w wm h YGMeasureMode.atMost).height = min h (max 0 ic.height)
    ∧ (RCTShadowViewMeasure ⟨100, 50⟩ 40 YGMeasureMode.exactly h hm).width = 40
    ∧ (RCTShadowViewMeasure ⟨100, 50⟩ 40 YGMeasureMode.atMost h hm).width = 40
    ∧ (RCTShadowViewMeasure ⟨100, 50⟩ 200 YGMeasureMode.atMost h hm).width = 100
    ∧ (RCTShadowViewMeasure ⟨-1, -1⟩ w YGMeasureMode.undefined h hm).width = 0
    ∧ (RCTShadowViewMeasure ⟨-1, -1⟩ w wm h YGMeasureMode.undefined).height = 0 := by
  refine ⟨rfl, rfl, rfl, rfl, rfl, rfl, rfl, ?_, ?_, rfl, rfl⟩ <;>
    simp [RCTShadowViewMeasure]

/-- Claim C10: when the stored layout metrics of a node carry display type
None, the child-layout pass returns at once: the returned tree is the
unchanged input (so no descendant solver output is consumed, every
descendant `hasNewLayout` marker survives, and no stored metrics change),
and no tag is added to the affected set. -/
theorem C10_display_none_early_return (view : ShadowView) (absolutePosition : CGPoint)
    (h : view.metrics.displayType = RCTDisplayType.none) :
    layoutSubviewsWithContext view absolutePosition = (view, [], []) := by
  match view with
  | ShadowView.mk tag solver metrics children =>
    simp only [ShadowView.metrics] at h
    simp [layoutSubviewsWithContext, h]

/-- Witness for C10: a concrete display-none node whose child still has
pending new layout is returned untouched. -/
theorem C10_witness :
    displayNoneDemo.metrics.displayType = RCTDisplayType.none
    ∧ solverA.hasNewLayout = true
    ∧ layoutSubviewsWithContext displayNoneDemo ⟨0, 0⟩ = (displayNoneDemo, [], []) :=
  ⟨rfl, rfl, C10_display_none_early_return displayNoneDemo ⟨0, 0⟩ rfl⟩

/-- The hit-test loop, characterised against the declarative description:
the first child in list order whose frame contains the point is recursed
into with the translated point, and the fallback tag is returned when no
child frame contains the point. -/
theorem reactTagAtPointLoop_eq (cs : ShadowViews) (point : CGPoint) (selfTag : Nat) :
    reactTagAtPointLoop cs point selfTag =
      match firstChildContaining cs point with
      | some c => reactTagAtPoint c ⟨point.x - c.metrics.frame.x, point.y - c.metrics.frame.y⟩
      | Option.none => selfTag := by
  match cs with
  | ShadowViews.nil => rfl
  | ShadowViews.cons (ShadowView.mk ctag csolver cmetrics cchildren) rest =>
    by_cases h : CGRectContainsPoint cmetrics.frame point
    · simp [reactTagAtPointLoop, firstChildContaining, ShadowView.metrics, h, reactTagAtPoint]
    · simp [reactTagAtPointLoop, firstChildContaining, ShadowView.metrics, h,
        reactTagAtPointLoop_eq rest point selfTag]

/-- Claim C6: `ABI46_0_0ReactTagAtPoint:` searches the children in
child-list order, recurses into the first child whose frame contains the
point with the point translated by the child frame origin, and returns the
receiver tag when no child frame contains the point; consequently, for the
concrete overlapping siblings `overlapA` (tag 1) and `overlapB` (tag 2),
whose frames both contain `(6, 6)`, the result is the earlier sibling
tag 1. -/
theorem C6_hit_test_first_child_order :
    (∀ (view : ShadowView) (point : CGPoint),
      reactTagAtPoint view point =
        match firstChildContaining view.children point with
        | some c => reactTagAtPoint c ⟨point.x - c.metrics.frame.x, point.y - c.metrics.frame.y⟩
        | Option.none => view.tag)
    ∧ CGRectContainsPoint overlapA.metrics.frame ⟨6, 6⟩ = true
    ∧ CGRectContainsPoint overlapB.metrics.frame ⟨6, 6⟩ = true
    ∧ reactTagAtPoint overlapParent ⟨6, 6⟩ = 1 := by
  refine ⟨?_, by decide, by decide, by decide⟩
  intro view point
  match view with
  | ShadowView.mk tag solver metrics children =>
    exact reactTagAtPointLoop_eq children point tag

/-- Counterexample to claim C1: in the tree `demoRootAC` (root at
`(0, 0)` with children A at local `(10, 10)` and C at local `(20, 20)`,
all with new solver layout), the absolute position recorded for the later
sibling C is `(30, 30)` — it includes the frame origin of the earlier
sibling A — whereas the claim requires `(20, 20)`. -/
theorem C1_counterexample :
    (layoutSubviewsWithContext demoRootAC ⟨0, 0⟩).2.2
      = [(1, ⟨10, 10⟩), (3, ⟨15, 15⟩), (2, ⟨30, 30⟩)]
    ∧ ((⟨30, 30⟩ : CGPoint) ≠ ⟨20, 20⟩) := by
  decide

/-- Claim C1, amended: traversal is depth-first and pre-order (the trace
of a processed child is its own entry, then its subtree, then the later
siblings), and a recursive call works on a by-value copy of the context,
so a subtree does not advance the accumulator of its parent; but within
one loop the accumulator is advanced in place, so the later siblings are
processed with the accumulated offset including the frame origin of every
earlier sibling that had new layout.  Consequently grandchild B at local
`(5, 5)` inside A at local `(10, 10)` under a root at `(0, 0)` obtains
absolute origin `(15, 15)` independent of the later siblings of A only
because A is the first child: the second conjunct states this for every
list of later siblings of A. -/
theorem C1_amended_sibling_offset_accumulates :
    (∀ (ctag : Nat) (csolver : YGNodeState) (cmetrics : RCTLayoutMetrics)
        (cchildren rest : ShadowViews) (abs : CGPoint),
      csolver.hasNewLayout = true →
      (layoutSubviewsLoop
          (ShadowViews.cons (ShadowView.mk ctag csolver cmetrics cchildren) rest) abs).2.2.1
        = (ctag, (⟨abs.x + csolver.frame.x, abs.y + csolver.frame.y⟩ : CGPoint))
          :: (if csolver.displayType = RCTDisplayType.none then []
              else (layoutSubviewsLoop cchildren
                (⟨abs.x + csolver.frame.x, abs.y + csolver.frame.y⟩ : CGPoint)).2.2.1)
          ++ (layoutSubviewsLoop rest
              (⟨abs.x + csolver.frame.x, abs.y + csolver.frame.y⟩ : CGPoint)).2.2.1)
    ∧ (∀ rest : ShadowViews,
        (layoutSubviewsWithContext (demoRootWith rest) ⟨0, 0⟩).2.2
          = (1, (⟨10, 10⟩ : CGPoint)) :: (3, (⟨15, 15⟩ : CGPoint))
            :: (layoutSubviewsLoop rest ⟨10, 10⟩).2.2.1) := by
  constructor
  · intro ctag csolver cmetrics cchildren rest abs hNew
    by_cases hD : csolver.displayType = RCTDisplayType.none
    · simp [layoutSubviewsLoop, hNew, hD, RCTLayoutMetricsFromYogaNode]
    · simp [layoutSubviewsLoop, hNew, hD, RCTLayoutMetricsFromYogaNode]
  · intro rest
    simp [demoRootWith, demoRootMetrics, demoRootSolver, demoA, demoB, solverA, solverB,
      demoMetricsZero, layoutSubviewsWithContext, layoutSubviewsLoop,
      RCTLayoutMetricsFromYogaNode]

/-- Witness for the amended C1: child A with new layout, processed from
accumulator `(0, 0)`, records itself at `(10, 10)` and grandchild B at
`(15, 15)`. -/
theorem C1_amended_witness :
    solverA.hasNewLayout = true
    ∧ (layoutSubviewsLoop (ShadowViews.cons demoA ShadowViews.nil) ⟨0, 0⟩).2.2.1
        = [(1, ⟨10, 10⟩), (3, ⟨15, 15⟩)] := by
  refine ⟨rfl, ?_⟩
  rw [show demoA
      = ShadowView.mk 1 solverA demoMetricsZero (ShadowViews.cons demoB ShadowViews.nil)
      from rfl]
  rw [C1_amended_sibling_offset_accumulates.1 1 solverA demoMetricsZero
    (ShadowViews.cons demoB ShadowViews.nil) ShadowViews.nil ⟨0, 0⟩ rfl]
  decide

/-- Claim C8: starting from any node whose yoga child list mirrors its
subview list (in particular the freshly initialised node, where both are
empty), every admissible sequence of insert and remove operations
preserves the mirror: the yoga child ordering equals the subview ordering
after the whole sequence.  Insertion attaches the yoga child at the same
index as the subview; removal detaches it. -/
theorem C8_topology_mirror (ops : List TreeOp) (st stFinal : NodeLinks)
    (hEq : st.reactSubviews = st.yogaChildren)
    (hNodup : st.reactSubviews.Nodup)
    (hRun : applyTreeOps st ops = some stFinal) :
    stFinal.reactSubviews = stFinal.yogaChildren := by
  induction ops generalizing st with
  | nil =>
    simp only [applyTreeOps, Option.some.injEq] at hRun
    exact hRun ▸ hEq
  | cons op rest ih =>
    cases op with
    | insert tag atIndex =>
      by_cases hAdm : tag ∈ st.reactSubviews ∨ st.reactSubviews.length < atIndex
      · simp [applyTreeOps, hAdm] at hRun
      · rw [applyTreeOps, if_neg hAdm] at hRun
        simp only [insertReactSubview, canHaveSubviews, isYogaLeafNode] at hRun
        norm_num at hRun
        push_neg at hAdm
        obtain ⟨hMem, hLen⟩ := hAdm
        refine ih _ ?_ ?_ hRun
        · show st.reactSubviews.insertIdx atIndex tag = st.yogaChildren.insertIdx atIndex tag
          rw [hEq]
        · show (st.reactSubviews.insertIdx atIndex tag).Nodup
          have hperm := List.perm_insertIdx tag st.reactSubviews hLen
          exact hperm.nodup_iff.mpr (List.nodup_cons.mpr ⟨hMem, hNodup⟩)
    | remove tag =>
      rw [applyTreeOps] at hRun
      simp only [removeReactSubview, isYogaLeafNode] at hRun
      norm_num at hRun
      refine ih _ ?_ ?_ hRun
      · show st.reactSubviews.filter (fun t => t != tag) = st.yogaChildren.erase tag
        rw [← hEq, List.Nodup.erase_eq_filter hNodup]
      · exact hNodup.filter _

/-- Witness for C8: the concrete admissible sequence `demoOps` applied to
the empty node reaches `demoLinksFinal`, whose two child sequences are
equal. -/
theorem C8_witness :
    applyTreeOps ⟨[], []⟩ demoOps = some demoLinksFinal
    ∧ demoLinksFinal.reactSubviews = demoLinksFinal.yogaChildren :=
  ⟨by decide, C8_topology_mirror demoOps ⟨[], []⟩ demoLinksFinal rfl (by decide) (by decide)⟩

/-- Counterexample to claim C9: removing the tag `5`, which is not a child
of the node `⟨[1, 2], [1, 2]⟩`, completes as a successful call (no
assertion, no error): both child sequences are returned unchanged, and the
parent back-reference of the subview (previously `some 7`) is still
unconditionally cleared — rather than the call failing as a contract
violation. -/
theorem C9_counterexample :
    removeReactSubview ⟨[1, 2], [1, 2]⟩ (some 7) 5
      = Except.ok (⟨[1, 2], [1, 2]⟩, Option.none) := rfl

/-- Claim C9, amended: `removeABI46_0_0ReactSubview:` never raises; it
always clears the subview parent back-reference, removes every occurrence
of the subview from the child array, and detaches the yoga child link.
When the subview is not currently a child this is a silent no-op on both
child sequences (not a surfaced contract violation); when it is a child,
it is removed from both sequences. -/
theorem C9_amended_silent_removal (st : NodeLinks) (sup : Option Nat) (tag : Nat) :
    removeReactSubview st sup tag
      = Except.ok
          (⟨st.reactSubviews.filter (fun t => t != tag), st.yogaChildren.erase tag⟩,
            Option.none)
    ∧ (tag ∉ st.reactSubviews → st.reactSubviews.filter (fun t => t != tag) = st.reactSubviews)
    ∧ (tag ∉ st.yogaChildren → st.yogaChildren.erase tag = st.yogaChildren)
    ∧ tag ∉ st.reactSubviews.filter (fun t => t != tag) := by
  refine ⟨rfl, ?_, ?_, ?_⟩
  · intro h
    refine List.filter_eq_self.mpr fun a ha => ?_
    simp only [bne_iff_ne, ne_eq]
    rintro rfl
    exact h ha
  · exact fun h => List.erase_of_not_mem h
  · simp [List.mem_filter]

/-- Witness for the amended C9 at a concrete non-child input. -/
theorem C9_witness :
    (9 : Nat) ∉ [4] ∧ List.filter (fun t => t != 9) [4] = [4] :=
  ⟨by decide, (C9_amended_silent_removal ⟨[4], [4]⟩ Option.none 9).2.1 (by decide)⟩

/-- Claim C7: `sizeThatFitsMinimumSize:maximumSize:` is observationally
pure with respect to the committed tree: with every handle at or above
`nextHandle` unallocated, the final store equals the initial store at
every handle (so every committed yoga node, with its layout, dirty flag
and has-new-layout flag, is untouched and both scratch handles are freed),
and exactly the two scratch handles were consumed. -/
theorem C7_sizeThatFits_pure (computeFn : ScratchComputeFn) (store : YGStore)
    (nextHandle selfHandle : Nat) (minWidth minHeight maxWidth maxHeight : Int)
    (hFresh : ∀ h2, nextHandle ≤ h2 → store h2 = Option.none) :
    (sizeThatFitsMinimumSize computeFn store nextHandle selfHandle
        minWidth minHeight maxWidth maxHeight).2.1 = store
    ∧ (sizeThatFitsMinimumSize computeFn store nextHandle selfHandle
        minWidth minHeight maxWidth maxHeight).2.2 = nextHandle + 2 := by
  refine ⟨funext fun h2 => ?_, rfl⟩
  by_cases h0 : h2 = nextHandle
  · simp [sizeThatFitsMinimumSize, storeModify, storeSet, storeGet, h0,
      hFresh nextHandle le_rfl]
  · by_cases h1 : h2 = nextHandle + 1
    · have hne : nextHandle + 1 ≠ nextHandle := by omega
      simp [sizeThatFitsMinimumSize, storeModify, storeSet, storeGet, h1, hne,
        hFresh (nextHandle + 1) (by omega)]
    · simp [sizeThatFitsMinimumSize, storeModify, storeSet, storeGet, h0, h1]

/-- Witness for C7: a store with one committed node at handle 0 is
returned unchanged by a standalone measurement. -/
theorem C7_witness :
    (sizeThatFitsMinimumSize computeFnDemo storeDemo 1 0 0 0 100 100).2.1 = storeDemo :=
  (C7_sizeThatFits_pure computeFnDemo storeDemo 1 0 0 0 100 100
    (fun h2 hh => if_neg (by omega))).1

/-- Applying metrics to a view leaves its yoga node untouched. -/
theorem solver_layoutWithMetrics (v : ShadowView) (m : RCTLayoutMetrics) :
    (layoutWithMetrics v m).1.solver = v.solver := by
  match v with
  | ShadowView.mk t s me cs =>
    by_cases h : me = m <;> simp [layoutWithMetrics, h, ShadowView.solver]

/-- The child-layout pass leaves the yoga node of the receiver untouched
(only descendants are rewritten). -/
theorem solver_layoutSubviewsWithContext (v : ShadowView) (p : CGPoint) :
    (layoutSubviewsWithContext v p).1.solver = v.solver := by
  match v with
  | ShadowView.mk t s me cs =>
    by_cases h : me.displayType = RCTDisplayType.none <;>
      simp [layoutSubviewsWithContext, h, ShadowView.solver]

/-- Applying metrics to a view does not change any dirty flag. -/
theorem anyDirty_layoutWithMetrics (v : ShadowView) (m : RCTLayoutMetrics) :
    anyDirty (layoutWithMetrics v m).1 = anyDirty v := by
  match v with
  | ShadowView.mk t s me cs =>
    by_cases h : me = m <;> simp [layoutWithMetrics, h, anyDirty]

/-- The child-layout loop rewrites `hasNewLayout` flags and stored metrics
but never a dirty flag. -/
theorem anyDirtyList_layoutSubviewsLoop (cs : ShadowViews) (p : CGPoint) :
    anyDirtyList (layoutSubviewsLoop cs p).1 = anyDirtyList cs := by
  match cs with
  | ShadowViews.nil => rfl
  | ShadowViews.cons (ShadowView.mk ctag csolver cmetrics cchildren) rest =>
    by_cases h : csolver.hasNewLayout = false
    · simp [layoutSubviewsLoop, h, anyDirtyList,
        anyDirtyList_layoutSubviewsLoop rest p]
    · by_cases hD : csolver.displayType = RCTDisplayType.none
      · simp [layoutSubviewsLoop, h, hD, RCTLayoutMetricsFromYogaNode, anyDirtyList, anyDirty,
          anyDirtyList_layoutSubviewsLoop rest
            (⟨p.x + csolver.frame.x, p.y + csolver.frame.y⟩ : CGPoint)]
      · simp [layoutSubviewsLoop, h, hD, RCTLayoutMetricsFromYogaNode, anyDirtyList, anyDirty,
          anyDirtyList_layoutSubviewsLoop rest
            (⟨p.x + csolver.frame.x, p.y + csolver.frame.y⟩ : CGPoint),
          anyDirtyList_layoutSubviewsLoop cchildren
            (⟨p.x + csolver.frame.x, p.y + csolver.frame.y⟩ : CGPoint)]

/-- The child-layout pass never changes a dirty flag. -/
theorem anyDirty_layoutSubviewsWithContext (v : ShadowView) (p : CGPoint) :
    anyDirty (layoutSubviewsWithContext v p).1 = anyDirty v := by
  match v with
  | ShadowView.mk t s me cs =>
    by_cases h : me.displayType = RCTDisplayType.none <;>
      simp [layoutSubviewsWithContext, h, anyDirty, anyDirtyList_layoutSubviewsLoop cs p]

mutual
/-- After a full solver computation nothing is dirty. -/
theorem anyDirty_markComputed (v : ShadowView) : anyDirty (markComputed v) = false := by
  match v with
  | ShadowView.mk t s me cs =>
    simp [markComputed, anyDirty, anyDirtyList_markComputedList cs]
theorem anyDirtyList_markComputedList (cs : ShadowViews) :
    anyDirtyList (markComputedList cs) = false := by
  match cs with
  | ShadowViews.nil => rfl
  | ShadowViews.cons c rest =>
    simp [markComputedList, anyDirtyList, anyDirty_markComputed c,
      anyDirtyList_markComputedList rest]
end

/-- The solver call never touches the root style slots. -/
theorem rootStyle_calculate (alg : LayoutAlg) (st : LayoutRootState) (maxW maxH : Int)
    (dir : LayoutDirection) :
    (YGNodeCalculateLayoutModel alg st maxW maxH dir).rootStyle = st.rootStyle := by
  unfold YGNodeCalculateLayoutModel
  by_cases h : anyDirty st.tree = false ∧ st.lastCompute = some (maxW, maxH, dir)
  · rw [if_pos h]
  · rw [if_neg h]

/-- After the solver call the last computed constraint box is the
requested one. -/
theorem lastCompute_calculate (alg : LayoutAlg) (st : LayoutRootState) (maxW maxH : Int)
    (dir : LayoutDirection) :
    (YGNodeCalculateLayoutModel alg st maxW maxH dir).lastCompute
      = some (maxW, maxH, dir) := by
  unfold YGNodeCalculateLayoutModel
  by_cases h : anyDirty st.tree = false ∧ st.lastCompute = some (maxW, maxH, dir)
  · rw [if_pos h]; exact h.2
  · rw [if_neg h]

/-- After the solver call nothing is dirty (this is the invariant the
source asserts right after `ABI46_0_0YGNodeCalculateLayout`). -/
theorem anyDirty_calculate (alg : LayoutAlg) (st : LayoutRootState) (maxW maxH : Int)
    (dir : LayoutDirection) :
    anyDirty (YGNodeCalculateLayoutModel alg st maxW maxH dir).tree = false := by
  unfold YGNodeCalculateLayoutModel
  by_cases h : anyDirty st.tree = false ∧ st.lastCompute = some (maxW, maxH, dir)
  · rw [if_pos h]; exact h.1
  · rw [if_neg h]; exact anyDirty_markComputed _

/-- The apply-and-recurse tail preserves the root style, the solver
constraint cache, and all dirty flags, and always leaves the root without
pending new layout. -/
theorem layout_tail_facts (st2 : LayoutRootState) (absIn : CGPoint) :
    (layoutApplyAndRecurse st2 absIn).1.rootStyle = st2.rootStyle
    ∧ (layoutApplyAndRecurse st2 absIn).1.lastCompute = st2.lastCompute
    ∧ anyDirty (layoutApplyAndRecurse st2 absIn).1.tree = anyDirty st2.tree
    ∧ (layoutApplyAndRecurse st2 absIn).1.tree.solver.hasNewLayout = false := by
  by_cases hn : st2.tree.solver.hasNewLayout = false
  · unfold layoutApplyAndRecurse
    rw [if_pos hn]
    exact ⟨rfl, rfl, rfl, hn⟩
  · simp only [layoutApplyAndRecurse]
    rw [if_neg hn]
    refine ⟨rfl, rfl, ?_, ?_⟩
    · show anyDirty (layoutSubviewsWithContext (layoutWithMetrics _ _).1 _).1 = _
      rw [anyDirty_layoutSubviewsWithContext, anyDirty_layoutWithMetrics]
      rcases hT : st2.tree with ⟨t, s, m, c⟩
      simp [anyDirty, ShadowView.tag, ShadowView.solver, ShadowView.metrics,
        ShadowView.children, hT]
    · show (layoutSubviewsWithContext (layoutWithMetrics _ _).1 _).1.solver.hasNewLayout = false
      rw [solver_layoutSubviewsWithContext, solver_layoutWithMetrics]
      simp [ShadowView.solver]

/-- Claim C5: layout is idempotent with respect to the affected-node set —
for every deterministic solver, every state, and every constraint box, a
second `layoutWithMinimumSize:...` invocation with identical constraints
and no intervening mutation returns the state unchanged, with an empty
affected set (and an empty trace): no stored metrics change and no node is
registered as affected. -/
theorem C5_layout_idempotent (alg : LayoutAlg) (st : LayoutRootState)
    (minWidth minHeight maxWidth maxHeight : Int) (direction : LayoutDirection)
    (absIn : CGPoint) :
    layoutWithMinimumSize alg
        (layoutWithMinimumSize alg st minWidth minHeight maxWidth maxHeight direction absIn).1
        minWidth minHeight maxWidth maxHeight direction absIn
      = ((layoutWithMinimumSize alg st minWidth minHeight maxWidth maxHeight direction
            absIn).1, [], []) := by
  have expand : ∀ s : LayoutRootState,
      layoutWithMinimumSize alg s minWidth minHeight maxWidth maxHeight direction absIn
        = layoutApplyAndRecurse
            (YGNodeCalculateLayoutModel alg
              (if s.rootStyle.minWidth.getD 0 = minWidth
                  ∧ s.rootStyle.minHeight.getD 0 = minHeight then s
               else
                 { s with
                   rootStyle := ⟨some minWidth, some minHeight⟩
                   tree := markRootDirty s.tree })
              maxWidth maxHeight direction) absIn :=
    fun s => rfl
  set r1 := layoutWithMinimumSize alg st minWidth minHeight maxWidth maxHeight direction absIn
    with hr1
  set st1 :=
    if st.rootStyle.minWidth.getD 0 = minWidth ∧ st.rootStyle.minHeight.getD 0 = minHeight
    then st
    else
      { st with
        rootStyle := ⟨some minWidth, some minHeight⟩
        tree := markRootDirty st.tree }
    with hst1
  have hr1eq : r1 = layoutApplyAndRecurse
      (YGNodeCalculateLayoutModel alg st1 maxWidth maxHeight direction) absIn := by
    rw [hr1, expand st, hst1]
  have htail := layout_tail_facts
    (YGNodeCalculateLayoutModel alg st1 maxWidth maxHeight direction) absIn
  have hStyle : r1.1.rootStyle.minWidth.getD 0 = minWidth
      ∧ r1.1.rootStyle.minHeight.getD 0 = minHeight := by
    rw [hr1eq, htail.1, rootStyle_calculate]
    rw [hst1]
    by_cases hc : st.rootStyle.minWidth.getD 0 = minWidth
        ∧ st.rootStyle.minHeight.getD 0 = minHeight
    · rw [if_pos hc]; exact hc
    · rw [if_neg hc]; exact ⟨rfl, rfl⟩
  have hLast : r1.1.lastCompute = some (maxWidth, maxHeight, direction) := by
    rw [hr1eq, htail.2.1, lastCompute_calculate]
  have hDirty : anyDirty r1.1.tree = false := by
    rw [hr1eq, htail.2.2.1, anyDirty_calculate]
  have hHNL : r1.1.tree.solver.hasNewLayout = false := by
    rw [hr1eq]; exact htail.2.2.2
  rw [expand r1.1, if_pos hStyle]
  have hskip : YGNodeCalculateLayoutModel alg r1.1 maxWidth maxHeight direction = r1.1 := by
    unfold YGNodeCalculateLayoutModel
    rw [if_pos ⟨hDirty, hLast⟩]
  rw [hskip]
  unfold layoutApplyAndRecurse
  rw [if_pos hHNL]
